import Mathlib

/-!
Verification of the page-geometry transform engine of the Crop repository
(src/crop.py): the crop-value validator `validate_crop_values`, the transform
`crop_and_scale_pdf`, and the preview-size computation of the UI script.

Coordinates and scale factors are modelled as rationals. A source page is its
page rectangle (width, height, with the origin at (0,0) as in `page.rect`)
plus an abstract content identifier; an output page carries the computed
media box and crop box together with the copied content.
-/

namespace Crop

/-- A crop rectangle (left, top, right, bottom), as the `crop_values` tuple. -/
structure CropValues where
  left : ℚ
  top : ℚ
  right : ℚ
  bottom : ℚ
  deriving DecidableEq

/-- A rectangle (x0, y0, x1, y1), as `fitz.Rect`. -/
structure Rect where
  x0 : ℚ
  y0 : ℚ
  x1 : ℚ
  y1 : ℚ
  deriving DecidableEq

/-- Componentwise rectangle intersection, as the operator in
`crop_box = crop_box & media_box` (src/crop.py line 63). -/
def Rect.inter (a b : Rect) : Rect :=
  ⟨max a.x0 b.x0, max a.y0 b.y0, min a.x1 b.x1, min a.y1 b.y1⟩

/-- Rectangle `a` contains rectangle `b` in every coordinate. -/
def Rect.containsRect (a b : Rect) : Prop :=
  a.x0 ≤ b.x0 ∧ a.y0 ≤ b.y0 ∧ b.x1 ≤ a.x1 ∧ b.y1 ≤ a.y1

/-- A page of the source document: its intrinsic rectangle is
(0, 0, width, height) as `page.rect`; `content` stands for the page's
drawable content stream, which the transform never alters. -/
structure SourcePage where
  width : ℚ
  height : ℚ
  content : ℕ
  deriving DecidableEq

/-- A page of the output document produced by `crop_and_scale_pdf`. -/
structure OutPage where
  mediaBox : Rect
  cropBox : Rect
  content : ℕ
  deriving DecidableEq

/-- `validate_crop_values` (src/crop.py lines 26-31): raises a `ValueError`
(modelled as `Except.error` with the exception message) when the rectangle is
degenerate or inverted, or when it exceeds the page's width/height. -/
def validate_crop_values (c : CropValues) (w h : ℚ) : Except String Unit :=
  if c.left ≥ c.right ∨ c.top ≥ c.bottom then
    Except.error "Invalid crop values: ensure right > left and bottom > top"
  else if c.right > w ∨ c.bottom > h then
    Except.error "Crop values exceed page dimensions"
  else
    Except.ok ()

/-- One iteration of the loop in `crop_and_scale_pdf` (src/crop.py lines
39-75): validate against the page's unscaled rectangle, scale the page and
the crop coordinates, intersect the crop box with the media box, and emit a
page that copies the source content with the two boxes set. -/
def process_page (c : CropValues) (s : ℚ) (p : SourcePage) : Except String OutPage :=
  match validate_crop_values c p.width p.height with
  | Except.error e => Except.error e
  | Except.ok _ =>
    let media_box : Rect := ⟨0, 0, p.width * s, p.height * s⟩
    let crop_box : Rect := ⟨c.left * s, c.top * s, c.right * s, c.bottom * s⟩
    Except.ok ⟨media_box, crop_box.inter media_box, p.content⟩

/-- The per-page loop of `crop_and_scale_pdf`, in document order; the first
exception aborts the whole loop, so no pages after it are processed and no
partial list is ever returned. -/
def process_pages (c : CropValues) (s : ℚ) : List SourcePage → Except String (List OutPage)
  | [] => Except.ok []
  | p :: rest =>
    match process_page c s p with
    | Except.error e => Except.error e
    | Except.ok q =>
      match process_pages c s rest with
      | Except.error e => Except.error e
      | Except.ok qs => Except.ok (q :: qs)

/-- Outcome of calling a Python function: either an exception escaped to the
caller, or a value was returned (`none` models Python's `None`). -/
inductive PyResult (α : Type) where
  | raised : PyResult α
  | returned : Option α → PyResult α
  deriving DecidableEq

/-- `crop_and_scale_pdf` (src/crop.py lines 34-86). The argument `parsed`
is the outcome of `fitz.open("pdf", pdf_bytes)` on line 35: `none` when the
bytes cannot be parsed. That call sits before the `try` block, so its
exception escapes to the caller (`PyResult.raised`); every exception inside
the `try` block - validation failures in the loop, malformed pages,
serialization failures - is caught on line 81 and turned into `return None`
(`PyResult.returned none`). -/
def crop_and_scale_pdf (parsed : Option (List SourcePage)) (c : CropValues) (s : ℚ) :
    PyResult (List OutPage) :=
  match parsed with
  | none => PyResult.raised
  | some doc =>
    match process_pages c s doc with
    | Except.error _ => PyResult.returned none
    | Except.ok out => PyResult.returned (some out)

/-- The message `crop_and_scale_pdf` displays via `st.error` on line 82 when
an exception is caught inside the `try` block: the fixed prefix followed by
the exception's own text, with no page index. `none` when nothing is shown. -/
def crop_error_message (parsed : Option (List SourcePage)) (c : CropValues) (s : ℚ) :
    Option String :=
  match parsed with
  | none => none
  | some doc =>
    match process_pages c s doc with
    | Except.error e => some ("Error processing PDF: " ++ e)
    | Except.ok _ => none

/-- Index of the first page on which validation fails (the page whose
exception aborts the loop), if any. -/
def first_invalid_index (c : CropValues) : List SourcePage → Option ℕ
  | [] => none
  | p :: rest =>
    match validate_crop_values c p.width p.height with
    | Except.error _ => some 0
    | Except.ok _ => (first_invalid_index c rest).map (fun n => n + 1)

/-- Python's `int()` applied to a rational: truncation toward zero, as in
`int((right - left) * scale)` (src/crop.py lines 208-209). -/
def pyInt (q : ℚ) : ℤ :=
  if 0 ≤ q then ⌊q⌋ else -⌊-q⌋

/-- The pixel dimensions the preview block resizes the cropped image to
(src/crop.py lines 208-210): `int((right - left) * scale)` by
`int((bottom - top) * scale)`. -/
def preview_size (c : CropValues) (s : ℚ) : ℤ × ℤ :=
  (pyInt ((c.right - c.left) * s), pyInt ((c.bottom - c.top) * s))

/-- Modelled from the spec for comparison with `preview_size`: the spec's
preview dimensions "((right-left)*scale, (bottom-top)*scale), each rounded
to the nearest whole pixel". -/
def preview_size_rounded (c : CropValues) (s : ℚ) : ℤ × ℤ :=
  (round ((c.right - c.left) * s), round ((c.bottom - c.top) * s))

/-- The validator accepts exactly the rectangles with `left < right ≤ w` and
`top < bottom ≤ h`; left and top are not compared with 0. -/
theorem validate_ok_iff (c : CropValues) (w h : ℚ) :
    validate_crop_values c w h = Except.ok () ↔
      c.left < c.right ∧ c.right ≤ w ∧ c.top < c.bottom ∧ c.bottom ≤ h := by
  unfold validate_crop_values
  split
  · rename_i h1
    constructor
    · intro hcontra
      exact absurd hcontra (by simp)
    · rintro ⟨hlr, _, htb, _⟩
      rcases h1 with h1 | h1 <;> linarith
  · split
    · rename_i h1 h2
      constructor
      · intro hcontra
        exact absurd hcontra (by simp)
      · rintro ⟨_, hrw, _, hbh⟩
        rcases h2 with h2 | h2 <;> linarith
    · rename_i h1 h2
      push_neg at h1 h2
      constructor
      · intro _
        exact ⟨h1.1, h2.1, h1.2, h2.2⟩
      · intro _
        rfl

/-- The validator rejects a well-ordered rectangle that exceeds the page's
width or height, with the bounds `ValueError` message. -/
theorem validate_exceeds (c : CropValues) (w h : ℚ)
    (hlr : c.left < c.right) (htb : c.top < c.bottom)
    (hex : c.right > w ∨ c.bottom > h) :
    validate_crop_values c w h = Except.error "Crop values exceed page dimensions" := by
  unfold validate_crop_values
  rw [if_neg, if_pos hex]
  push_neg
  exact ⟨hlr, htb⟩

/-- When validation passes, `process_page` returns the scaled media box and
the clamped crop box. -/
theorem process_page_ok (c : CropValues) (s : ℚ) (p : SourcePage)
    (hv : validate_crop_values c p.width p.height = Except.ok ()) :
    process_page c s p = Except.ok
      ⟨⟨0, 0, p.width * s, p.height * s⟩,
       ⟨max (c.left * s) 0, max (c.top * s) 0,
        min (c.right * s) (p.width * s), min (c.bottom * s) (p.height * s)⟩,
       p.content⟩ := by
  unfold process_page
  rw [hv]
  rfl

/-- When validation fails, `process_page` propagates the same exception. -/
theorem process_page_error (c : CropValues) (s : ℚ) (p : SourcePage) (e : String)
    (hv : validate_crop_values c p.width p.height = Except.error e) :
    process_page c s p = Except.error e := by
  unfold process_page
  rw [hv]

/-- With a nonnegative scale and a crop rectangle inside the page (including
nonnegative left and top), the intersection clamp is the identity and
`process_page` returns the scaled crop rectangle itself. -/
theorem process_page_in_bounds (c : CropValues) (s : ℚ) (p : SourcePage)
    (hs : 0 ≤ s) (h0l : 0 ≤ c.left) (h0t : 0 ≤ c.top)
    (hlr : c.left < c.right) (htb : c.top < c.bottom)
    (hrw : c.right ≤ p.width) (hbh : c.bottom ≤ p.height) :
    process_page c s p = Except.ok
      ⟨⟨0, 0, p.width * s, p.height * s⟩,
       ⟨c.left * s, c.top * s, c.right * s, c.bottom * s⟩, p.content⟩ := by
  have hv : validate_crop_values c p.width p.height = Except.ok () :=
    (validate_ok_iff c p.width p.height).mpr ⟨hlr, hrw, htb, hbh⟩
  have h1 : max (c.left * s) 0 = c.left * s := max_eq_left (mul_nonneg h0l hs)
  have h2 : max (c.top * s) 0 = c.top * s := max_eq_left (mul_nonneg h0t hs)
  have h3 : min (c.right * s) (p.width * s) = c.right * s :=
    min_eq_left (mul_le_mul_of_nonneg_right hrw hs)
  have h4 : min (c.bottom * s) (p.height * s) = c.bottom * s :=
    min_eq_left (mul_le_mul_of_nonneg_right hbh hs)
  rw [process_page_ok c s p hv, h1, h2, h3, h4]

/-- With a nonnegative scale and a crop rectangle inside every page of the
document, the loop succeeds and maps each page to its scaled boxes. -/
theorem process_pages_in_bounds (c : CropValues) (s : ℚ) (doc : List SourcePage)
    (hs : 0 ≤ s) (h0l : 0 ≤ c.left) (h0t : 0 ≤ c.top)
    (hlr : c.left < c.right) (htb : c.top < c.bottom)
    (hin : ∀ p ∈ doc, c.right ≤ p.width ∧ c.bottom ≤ p.height) :
    process_pages c s doc = Except.ok (doc.map fun p =>
      ⟨⟨0, 0, p.width * s, p.height * s⟩,
       ⟨c.left * s, c.top * s, c.right * s, c.bottom * s⟩, p.content⟩) := by
  induction doc with
  | nil => rfl
  | cons p rest ih =>
    obtain ⟨hrw, hbh⟩ := hin p (List.mem_cons_self p rest)
    have hrest := ih (fun q hq => hin q (List.mem_cons_of_mem p hq))
    unfold process_pages
    rw [process_page_in_bounds c s p hs h0l h0t hlr htb hrw hbh, hrest, List.map_cons]

/-- C1: for every page, every crop rectangle that the validator accepts
against the page's unscaled rectangle, and every scale factor s > 0, the
crop box computed by `process_page` (scaled crop intersected with the scaled
media box) is fully contained in the computed media box in every
coordinate. -/
theorem C1_clamp_safety (p : SourcePage) (c : CropValues) (s : ℚ)
    (_hs : 0 < s) (hv : validate_crop_values c p.width p.height = Except.ok ()) :
    ∃ q : OutPage, process_page c s p = Except.ok q ∧
      q.mediaBox.containsRect q.cropBox := by
  unfold process_page
  rw [hv]
  refine ⟨_, rfl, ?_, ?_, ?_, ?_⟩
  · exact le_max_right _ _
  · exact le_max_right _ _
  · exact min_le_right _ _
  · exact min_le_right _ _

/-- Witness for C1 at page 100 x 200, crop (10,10,90,190), scale 3/2. -/
theorem C1_clamp_safety_witness :
    0 < (3 / 2 : ℚ) ∧
    validate_crop_values ⟨10, 10, 90, 190⟩ 100 200 = Except.ok () ∧
    ∃ q : OutPage, process_page ⟨10, 10, 90, 190⟩ (3 / 2) ⟨100, 200, 0⟩ = Except.ok q ∧
      q.mediaBox.containsRect q.cropBox := by
  have hv : validate_crop_values ⟨10, 10, 90, 190⟩ (100 : ℚ) (200 : ℚ) = Except.ok () :=
    (validate_ok_iff _ _ _).mpr (by norm_num)
  exact ⟨by norm_num, hv,
    C1_clamp_safety ⟨100, 200, 0⟩ ⟨10, 10, 90, 190⟩ (3 / 2) (by norm_num) hv⟩

/-- C2 counterexample: the crop rectangle (-1, 0, 1, 1) on a 2 x 2 page has a
negative left yet the validator accepts it, so "succeeds iff
0 ≤ left < right ≤ W and 0 ≤ top < bottom ≤ H" fails at this input. -/
theorem C2_validator_iff_counterexample :
    ¬ ((validate_crop_values ⟨-1, 0, 1, 1⟩ 2 2 = Except.ok ()) ↔
        (0 ≤ (-1 : ℚ) ∧ (-1 : ℚ) < 1 ∧ (1 : ℚ) ≤ 2 ∧
         0 ≤ (0 : ℚ) ∧ (0 : ℚ) < 1 ∧ (1 : ℚ) ≤ 2)) := by
  intro hiff
  have hok : validate_crop_values ⟨-1, 0, 1, 1⟩ 2 2 = Except.ok () :=
    (validate_ok_iff _ _ _).mpr (by norm_num)
  have hneg := (hiff.mp hok).1
  norm_num at hneg

/-- C2 amended: the validator succeeds iff left < right ≤ W and
top < bottom ≤ H; it never compares left or top with 0, so negative origins
are accepted. -/
theorem C2_validator_iff (l t r b w h : ℚ) :
    validate_crop_values ⟨l, t, r, b⟩ w h = Except.ok () ↔
      l < r ∧ r ≤ w ∧ t < b ∧ b ≤ h :=
  validate_ok_iff ⟨l, t, r, b⟩ w h

/-- C9: any degenerate or inverted crop rectangle (left ≥ right or
top ≥ bottom) is rejected by the validator with the invalid-crop
`ValueError`, whatever the page rectangle is; in particular (50,50,50,60)
with left = right. -/
theorem C9_degenerate_rejection (w h l t r b : ℚ) (hdeg : l ≥ r ∨ t ≥ b) :
    validate_crop_values ⟨l, t, r, b⟩ w h =
      Except.error "Invalid crop values: ensure right > left and bottom > top" := by
  unfold validate_crop_values
  rw [if_pos hdeg]

/-- Witness for C9 at the spec's concrete rectangle (50,50,50,60) on a
100 x 100 page. -/
theorem C9_degenerate_rejection_witness :
    ((50 : ℚ) ≥ 50 ∨ (50 : ℚ) ≥ 60) ∧
    validate_crop_values ⟨50, 50, 50, 60⟩ 100 100 =
      Except.error "Invalid crop values: ensure right > left and bottom > top" :=
  ⟨Or.inl le_rfl, C9_degenerate_rejection 100 100 50 50 50 60 (Or.inl le_rfl)⟩

/-- C6: the spec's concrete scenario. A 2-page document with pages
100 x 200 and 150 x 200, crop rectangle (10,10,90,190), scale 3/2: the
transform succeeds, page 1 gets media box (0,0,150,300) and crop box
(15,15,135,285), page 2 gets media box (0,0,225,300) and the same crop
box. -/
theorem C6_concrete_scenario :
    crop_and_scale_pdf (some [⟨100, 200, 0⟩, ⟨150, 200, 1⟩]) ⟨10, 10, 90, 190⟩ (3 / 2) =
      PyResult.returned (some
        [⟨⟨0, 0, 150, 300⟩, ⟨15, 15, 135, 285⟩, 0⟩,
         ⟨⟨0, 0, 225, 300⟩, ⟨15, 15, 135, 285⟩, 1⟩]) := by
  have hpp := process_pages_in_bounds ⟨10, 10, 90, 190⟩ (3 / 2)
    [⟨100, 200, 0⟩, ⟨150, 200, 1⟩] (by norm_num) (by norm_num) (by norm_num)
    (by norm_num) (by norm_num) (by intro p hp; fin_cases hp <;> norm_num)
  simp only [crop_and_scale_pdf, hpp, List.map_cons, List.map_nil,
    PyResult.returned.injEq, Option.some.injEq, List.cons.injEq, OutPage.mk.injEq,
    Rect.mk.injEq, and_true]
  norm_num

/-- C3: at scale 1, for a crop rectangle inside every page's unscaled bounds
(and satisfying the crop-rectangle invariant left < right, top < bottom),
the transform succeeds and gives each page a media box equal to its source
rectangle and a crop box equal to the input crop rectangle: the intersection
step clamps nothing. -/
theorem C3_scale_identity (doc : List SourcePage) (c : CropValues)
    (h0l : 0 ≤ c.left) (h0t : 0 ≤ c.top)
    (hlr : c.left < c.right) (htb : c.top < c.bottom)
    (hin : ∀ p ∈ doc, c.right ≤ p.width ∧ c.bottom ≤ p.height) :
    crop_and_scale_pdf (some doc) c 1 =
      PyResult.returned (some (doc.map fun p =>
        ⟨⟨0, 0, p.width, p.height⟩, ⟨c.left, c.top, c.right, c.bottom⟩, p.content⟩)) := by
  have hpp := process_pages_in_bounds c 1 doc (by norm_num) h0l h0t hlr htb hin
  simp only [mul_one] at hpp
  simp only [crop_and_scale_pdf, hpp]

/-- Witness for C3: one 100 x 200 page with content 5, crop (10,10,90,190). -/
theorem C3_scale_identity_witness :
    0 ≤ (10 : ℚ) ∧ 0 ≤ (10 : ℚ) ∧ (10 : ℚ) < 90 ∧ (10 : ℚ) < 190 ∧
    (∀ p ∈ [(⟨100, 200, 5⟩ : SourcePage)], (90 : ℚ) ≤ p.width ∧ (190 : ℚ) ≤ p.height) ∧
    crop_and_scale_pdf (some [⟨100, 200, 5⟩]) ⟨10, 10, 90, 190⟩ 1 =
      PyResult.returned (some ([(⟨100, 200, 5⟩ : SourcePage)].map fun p =>
        ⟨⟨0, 0, p.width, p.height⟩, ⟨10, 10, 90, 190⟩, p.content⟩)) := by
  refine ⟨by norm_num, by norm_num, by norm_num, by norm_num,
    ?_, C3_scale_identity [⟨100, 200, 5⟩] ⟨10, 10, 90, 190⟩
      (by norm_num) (by norm_num) (by norm_num) (by norm_num) ?_⟩ <;>
    (intro p hp; fin_cases hp; constructor <;> norm_num)

/-- If some page of the document fails validation, the loop raises and so
returns no list of output pages. -/
theorem process_pages_error_of_invalid (c : CropValues) (s : ℚ) (doc : List SourcePage)
    (hbad : ∃ p ∈ doc, ∃ e, validate_crop_values c p.width p.height = Except.error e) :
    ∃ e, process_pages c s doc = Except.error e := by
  induction doc with
  | nil => simp at hbad
  | cons p rest ih =>
    obtain ⟨q, hq, e, he⟩ := hbad
    rcases List.mem_cons.mp hq with rfl | hmem
    · refine ⟨e, ?_⟩
      unfold process_pages
      rw [process_page_error c s q e he]
    · obtain ⟨e2, he2⟩ := ih ⟨q, hmem, e, he⟩
      unfold process_pages
      cases hp : process_page c s p with
      | error e3 => exact ⟨e3, rfl⟩
      | ok q2 => exact ⟨e2, by rw [he2]⟩

/-- C4: if any page of the document fails validation against the shared crop
rectangle, `crop_and_scale_pdf` returns `None`: no output bytes at all and
in particular no partial document. -/
theorem C4_atomicity (doc : List SourcePage) (c : CropValues) (s : ℚ)
    (hbad : ∃ p ∈ doc, ∃ e, validate_crop_values c p.width p.height = Except.error e) :
    crop_and_scale_pdf (some doc) c s = PyResult.returned none := by
  obtain ⟨e, he⟩ := process_pages_error_of_invalid c s doc hbad
  simp only [crop_and_scale_pdf, he]

/-- Witness for C4: a 2-page document whose second page (50 x 60) is too
small for the crop rectangle (10,10,90,190). -/
theorem C4_atomicity_witness :
    (∃ p ∈ [(⟨100, 200, 0⟩ : SourcePage), ⟨50, 60, 1⟩], ∃ e,
      validate_crop_values ⟨10, 10, 90, 190⟩ p.width p.height = Except.error e) ∧
    crop_and_scale_pdf (some [⟨100, 200, 0⟩, ⟨50, 60, 1⟩]) ⟨10, 10, 90, 190⟩ (3 / 2) =
      PyResult.returned none := by
  have hbad : ∃ p ∈ [(⟨100, 200, 0⟩ : SourcePage), ⟨50, 60, 1⟩], ∃ e,
      validate_crop_values ⟨10, 10, 90, 190⟩ p.width p.height = Except.error e :=
    ⟨⟨50, 60, 1⟩, by simp, "Crop values exceed page dimensions",
      validate_exceeds _ _ _ (by norm_num) (by norm_num) (by norm_num)⟩
  exact ⟨hbad, C4_atomicity [⟨100, 200, 0⟩, ⟨50, 60, 1⟩] ⟨10, 10, 90, 190⟩ (3 / 2) hbad⟩

/-- A page returned by `process_page` carries the source page's content
unchanged. -/
theorem process_page_content (c : CropValues) (s : ℚ) (p : SourcePage) (q : OutPage)
    (h : process_page c s p = Except.ok q) : q.content = p.content := by
  unfold process_page at h
  cases hv : validate_crop_values c p.width p.height with
  | error e =>
    rw [hv] at h
    exact Except.noConfusion h
  | ok u =>
    rw [hv] at h
    injection h with h
    rw [← h]

/-- A successful loop yields as many output pages as source pages, each with
the matching source page's content. -/
theorem process_pages_shape (c : CropValues) (s : ℚ) (doc : List SourcePage)
    (out : List OutPage) (h : process_pages c s doc = Except.ok out) :
    out.length = doc.length ∧
    ∀ i (h1 : i < out.length) (h2 : i < doc.length),
      (out.get ⟨i, h1⟩).content = (doc.get ⟨i, h2⟩).content := by
  induction doc generalizing out with
  | nil =>
    unfold process_pages at h
    injection h with h
    subst h
    refine ⟨rfl, ?_⟩
    intro i h1 h2
    simp at h1
  | cons p rest ih =>
    unfold process_pages at h
    cases hp : process_page c s p with
    | error e =>
      rw [hp] at h
      exact Except.noConfusion h
    | ok q =>
      rw [hp] at h
      cases hr : process_pages c s rest with
      | error e =>
        rw [hr] at h
        exact Except.noConfusion h
      | ok qs =>
        rw [hr] at h
        injection h with h
        subst h
        obtain ⟨hlen, hcont⟩ := ih qs hr
        refine ⟨by simp [hlen], ?_⟩
        intro i h1 h2
        cases i with
        | zero => simpa using process_page_content c s p q hp
        | succ n =>
          exact hcont n (Nat.lt_of_succ_lt_succ h1) (Nat.lt_of_succ_lt_succ h2)

/-- C5: whenever the transform succeeds, the output has exactly as many
pages as the input and page i of the output carries page i of the source
unchanged in content; only the media box and crop box are new. -/
theorem C5_frame (doc : List SourcePage) (c : CropValues) (s : ℚ) (out : List OutPage)
    (h : crop_and_scale_pdf (some doc) c s = PyResult.returned (some out)) :
    out.length = doc.length ∧
    ∀ i (h1 : i < out.length) (h2 : i < doc.length),
      (out.get ⟨i, h1⟩).content = (doc.get ⟨i, h2⟩).content := by
  simp only [crop_and_scale_pdf] at h
  cases hp : process_pages c s doc with
  | error e =>
    rw [hp] at h
    injection h with h
    exact Option.noConfusion h
  | ok out2 =>
    rw [hp] at h
    injection h with h
    injection h with h
    subst h
    exact process_pages_shape c s doc out2 hp

/-- Witness for C5: a 1-page document processed at scale 1. -/
theorem C5_frame_witness :
    (crop_and_scale_pdf (some [⟨100, 200, 7⟩]) ⟨10, 10, 90, 190⟩ 1 =
      PyResult.returned (some [⟨⟨0, 0, 100, 200⟩, ⟨10, 10, 90, 190⟩, 7⟩])) ∧
    ([(⟨⟨0, 0, 100, 200⟩, ⟨10, 10, 90, 190⟩, 7⟩ : OutPage)].length =
      [(⟨100, 200, 7⟩ : SourcePage)].length ∧
    ∀ i (h1 : i < [(⟨⟨0, 0, 100, 200⟩, ⟨10, 10, 90, 190⟩, 7⟩ : OutPage)].length)
        (h2 : i < [(⟨100, 200, 7⟩ : SourcePage)].length),
      (([(⟨⟨0, 0, 100, 200⟩, ⟨10, 10, 90, 190⟩, 7⟩ : OutPage)].get ⟨i, h1⟩).content =
        (([(⟨100, 200, 7⟩ : SourcePage)].get ⟨i, h2⟩).content))) := by
  have hpp := process_pages_in_bounds ⟨10, 10, 90, 190⟩ 1 [⟨100, 200, 7⟩]
    (by norm_num) (by norm_num) (by norm_num) (by norm_num) (by norm_num)
    (by intro p hp; fin_cases hp; constructor <;> norm_num)
  have heval : crop_and_scale_pdf (some [⟨100, 200, 7⟩]) ⟨10, 10, 90, 190⟩ 1 =
      PyResult.returned (some [⟨⟨0, 0, 100, 200⟩, ⟨10, 10, 90, 190⟩, 7⟩]) := by
    simp only [mul_one] at hpp
    simp only [crop_and_scale_pdf, hpp, List.map_cons, List.map_nil]
  exact ⟨heval, C5_frame [⟨100, 200, 7⟩] ⟨10, 10, 90, 190⟩ 1
    [⟨⟨0, 0, 100, 200⟩, ⟨10, 10, 90, 190⟩, 7⟩] heval⟩

/-- C7 counterexample: two documents made of a 100 x 200 page and a 50 x 60
page in the two orders, with crop (10,10,90,190). The first fails at page
index 0 and the second at page index 1, yet the message surfaced via
`st.error` is the identical fixed string in both cases - it cannot contain
the failing page index - and the caller receives `None`, not a structured
error value. -/
theorem C7_error_index_counterexample :
    first_invalid_index ⟨10, 10, 90, 190⟩ [⟨50, 60, 0⟩, ⟨100, 200, 1⟩] = some 0 ∧
    first_invalid_index ⟨10, 10, 90, 190⟩ [⟨100, 200, 0⟩, ⟨50, 60, 1⟩] = some 1 ∧
    crop_error_message (some [⟨50, 60, 0⟩, ⟨100, 200, 1⟩]) ⟨10, 10, 90, 190⟩ 1 =
      crop_error_message (some [⟨100, 200, 0⟩, ⟨50, 60, 1⟩]) ⟨10, 10, 90, 190⟩ 1 ∧
    crop_and_scale_pdf (some [⟨50, 60, 0⟩, ⟨100, 200, 1⟩]) ⟨10, 10, 90, 190⟩ 1 =
      PyResult.returned none := by
  have hsmall : validate_crop_values ⟨10, 10, 90, 190⟩ (50 : ℚ) (60 : ℚ) =
      Except.error "Crop values exceed page dimensions" :=
    validate_exceeds _ _ _ (by norm_num) (by norm_num) (by norm_num)
  have hbig : validate_crop_values ⟨10, 10, 90, 190⟩ (100 : ℚ) (200 : ℚ) = Except.ok () :=
    (validate_ok_iff _ _ _).mpr (by norm_num)
  refine ⟨?_, ?_, ?_, ?_⟩
  · simp [first_invalid_index, hsmall]
  · simp [first_invalid_index, hbig, hsmall]
  · simp [crop_error_message, process_pages, process_page, hbig, hsmall]
  · simp [crop_and_scale_pdf, process_pages, process_page, hsmall]

/-- C7 amended: when per-page processing fails with exception text e, the
operation aborts atomically - the caller receives `None`, never a partial
document - and the message shown is the fixed prefix followed by e alone;
no page index and no structured error value reach the caller. -/
theorem C7_error_surfacing (doc : List SourcePage) (c : CropValues) (s : ℚ) (e : String)
    (h : process_pages c s doc = Except.error e) :
    crop_and_scale_pdf (some doc) c s = PyResult.returned none ∧
    crop_error_message (some doc) c s = some ("Error processing PDF: " ++ e) := by
  constructor
  · simp only [crop_and_scale_pdf, h]
  · simp only [crop_error_message, h]

/-- Witness for C7 amended: a 1-page document whose page is too small. -/
theorem C7_error_surfacing_witness :
    (process_pages ⟨10, 10, 90, 190⟩ 1 [⟨50, 60, 0⟩] =
      Except.error "Crop values exceed page dimensions") ∧
    crop_and_scale_pdf (some [⟨50, 60, 0⟩]) ⟨10, 10, 90, 190⟩ 1 =
      PyResult.returned none ∧
    crop_error_message (some [⟨50, 60, 0⟩]) ⟨10, 10, 90, 190⟩ 1 =
      some ("Error processing PDF: " ++ "Crop values exceed page dimensions") := by
  have hsmall : validate_crop_values ⟨10, 10, 90, 190⟩ (50 : ℚ) (60 : ℚ) =
      Except.error "Crop values exceed page dimensions" :=
    validate_exceeds _ _ _ (by norm_num) (by norm_num) (by norm_num)
  have h : process_pages ⟨10, 10, 90, 190⟩ 1 [⟨50, 60, 0⟩] =
      Except.error "Crop values exceed page dimensions" := by
    unfold process_pages
    rw [process_page_error _ _ _ _ hsmall]
  exact ⟨h, C7_error_surfacing [⟨50, 60, 0⟩] ⟨10, 10, 90, 190⟩ 1 _ h⟩

/-- C8 counterexample: for crop rectangle (0,0,7,7) and scale 7/10, the
target width is (7-0)*(7/10) = 4.9 pixels; the code's `int()` truncates it
to 4 while rounding to the nearest whole pixel gives 5. -/
theorem C8_rounding_counterexample :
    preview_size ⟨0, 0, 7, 7⟩ (7 / 10) = (4, 4) ∧
    preview_size_rounded ⟨0, 0, 7, 7⟩ (7 / 10) = (5, 5) ∧
    ((4, 4) : ℤ × ℤ) ≠ ((5, 5) : ℤ × ℤ) := by
  refine ⟨?_, ?_, by decide⟩
  · unfold preview_size pyInt
    rw [if_pos (by norm_num)]
    norm_num [Int.floor_eq_iff]
  · unfold preview_size_rounded
    norm_num [round_eq, Int.floor_eq_iff]

/-- C8 amended: the preview resizes the cropped image to
((right-left)*scale, (bottom-top)*scale) with each dimension truncated
toward zero by Python's `int()` - the floor when the product is
nonnegative - not rounded to the nearest whole pixel. -/
theorem C8_preview_truncates (c : CropValues) (s : ℚ)
    (hw : 0 ≤ (c.right - c.left) * s) (hh : 0 ≤ (c.bottom - c.top) * s) :
    preview_size c s = (⌊(c.right - c.left) * s⌋, ⌊(c.bottom - c.top) * s⌋) := by
  unfold preview_size pyInt
  rw [if_pos hw, if_pos hh]

/-- Witness for C8 amended at crop (0,0,7,7), scale 7/10. -/
theorem C8_preview_truncates_witness :
    0 ≤ ((7 : ℚ) - 0) * (7 / 10) ∧ 0 ≤ ((7 : ℚ) - 0) * (7 / 10) ∧
    preview_size ⟨0, 0, 7, 7⟩ (7 / 10) =
      (⌊((7 : ℚ) - 0) * (7 / 10)⌋, ⌊((7 : ℚ) - 0) * (7 / 10)⌋) :=
  ⟨by norm_num, by norm_num,
    C8_preview_truncates ⟨0, 0, 7, 7⟩ (7 / 10) (by norm_num) (by norm_num)⟩

/-- C10 counterexample: when the input bytes cannot be opened as a PDF, the
`fitz.open` call on line 35 sits before the `try` block, so the exception
escapes `crop_and_scale_pdf` to its caller instead of being converted to a
`None` return. -/
theorem C10_raises_counterexample :
    crop_and_scale_pdf none ⟨10, 10, 90, 190⟩ 1 = PyResult.raised ∧
    crop_and_scale_pdf none ⟨10, 10, 90, 190⟩ 1 ≠ PyResult.returned none := by
  refine ⟨rfl, ?_⟩
  simp [crop_and_scale_pdf]

/-- C10 amended: once the document bytes have been opened successfully,
`crop_and_scale_pdf` never propagates an exception: every failure inside
the per-page loop or during serialization is caught and the function
returns a value (`None` on failure), which callers must test for. -/
theorem C10_no_raise_after_open (doc : List SourcePage) (c : CropValues) (s : ℚ) :
    ∃ v : Option (List OutPage),
      crop_and_scale_pdf (some doc) c s = PyResult.returned v := by
  simp only [crop_and_scale_pdf]
  cases process_pages c s doc with
  | error e => exact ⟨none, rfl⟩
  | ok out => exact ⟨some out, rfl⟩

end Crop
